import Mathlib

/-!
Verification of the Logger repository (src/logger.py, src/logger_template.py).

The Python code is shallowly embedded: the mutable objects of the `logging`
module (loggers, handlers, formatters) become explicit state values that every
operation takes and returns, the filesystem becomes an explicit `FS` value
(a list of created directories plus a map from paths to file contents), and
`pathlib.Path` values become their component lists, mirroring
`pathlib.PurePath.parts` (so "/tmp/logs" is `["/", "tmp", "logs"]`).
-/

namespace logging

/-- Severity constant `logging.NOTSET`. -/
def NOTSET : Nat := 0

/-- Severity constant `logging.DEBUG`. -/
def DEBUG : Nat := 10

/-- Severity constant `logging.INFO`. -/
def INFO : Nat := 20

/-- Severity constant `logging.WARNING`. -/
def WARNING : Nat := 30

/-- Severity constant `logging.ERROR`. -/
def ERROR : Nat := 40

/-- Severity constant `logging.CRITICAL`. -/
def CRITICAL : Nat := 50

/-- Severity constant `logging.FATAL` (an alias of `CRITICAL` in CPython). -/
def FATAL : Nat := 50

end logging

/-- Wall-clock instant, the part of `datetime.now()` that the code consumes. -/
structure Time where
  day : Nat
  month : Nat
  year : Nat
  hour : Nat
  minute : Nat
  second : Nat
deriving DecidableEq

/-- Zero-padded two-digit rendering, as `strftime` does for `%d`, `%m`, `%H`,
`%M`, `%S`. -/
def pad2 (n : Nat) : String :=
  if n < 10 then "0" ++ toString n else toString n

/-- Zero-padded four-digit rendering, as `strftime` does for `%Y`. -/
def pad4 (n : Nat) : String :=
  if n < 10 then "000" ++ toString n
  else if n < 100 then "00" ++ toString n
  else if n < 1000 then "0" ++ toString n
  else toString n

/-- The string of `n` repeated equal signs, built in the Python source by string multiplication. -/
def eqRun (n : Nat) : String := String.mk (List.replicate n '=')

/-- Rendering of `%(levelname)-8s`: left-justify to a minimum of 8 columns. -/
def ljust8 (s : String) : String :=
  s ++ String.mk (List.replicate (8 - s.length) ' ')

/-- A `pathlib` path as its sequence of parts (`PurePath.parts`); an absolute
path starts with the root part "/". -/
abbrev PyPath := List String

/-- Rendering of a path back to its string form, as an f-string does with a
`Path` value. -/
def pathRepr : PyPath → String
  | [] => ""
  | "/" :: rest => "/" ++ String.intercalate "/" rest
  | parts => String.intercalate "/" parts

/-- Filesystem state: the set of directories that exist and the contents of
the files that exist. -/
structure FS where
  dirs : List PyPath
  files : PyPath → Option String

/-- Content of the file at `p`, when it exists. -/
def FS.findFile (fs : FS) (p : PyPath) : Option String := fs.files p

/-- Appending `s` to the file at `p` (creating an empty file first when `p`
does not exist), as a write on a stream opened in append mode behaves. -/
def FS.writeAppend (fs : FS) (p : PyPath) (s : String) : FS :=
  { fs with files := fun q => if q = p then some ((fs.files p).getD "" ++ s) else fs.files q }

/-- Opening the file at `p` in append mode: an absent file is created empty,
an existing file keeps its content. `logging.FileHandler` does this at
construction (its default is `delay=False`). -/
def FS.openAppend (fs : FS) (p : PyPath) : FS :=
  { fs with files := fun q => if q = p then some ((fs.files p).getD "") else fs.files q }

/-- Creating a single directory if it is absent. -/
def FS.addDir (fs : FS) (d : PyPath) : FS :=
  if d ∈ fs.dirs then fs else { fs with dirs := fs.dirs ++ [d] }

/-- The nonempty leading segments of a path: the directories that
`Path.mkdir(parents=True)` ensures exist, from the outermost ancestor down to
the path itself. -/
def leadingPaths (p : PyPath) : List PyPath :=
  (List.range p.length).map (fun i => p.take (i + 1))

/-- Embedding of `Path.mkdir(path, parents=True, exist_ok=True)`: create every
missing ancestor and the directory itself; directories that already exist are
left alone and raise no error. -/
def FS.mkdirP (fs : FS) (p : PyPath) : FS :=
  (leadingPaths p).foldl FS.addDir fs

/-- The fields of a `logging.LogRecord` that the two formatters consume.
`excText` is `some t` when the record carries exception info whose standard
rendering (`logging.Formatter.formatException` of the base class) is `t`. -/
structure Record where
  levelno : Nat
  levelname : String
  message : String
  asctime : String
  filename : String
  funcName : String
  lineno : Nat
  excText : Option String
deriving DecidableEq

/-- State of a `FileFormatter` instance: the one-shot flag set by
`formatException` and consumed by the next `formatMessage`. -/
structure FileFormatter where
  is_last_msg_exception : Bool
deriving DecidableEq

/-- The line produced by the style string that `FileFormatter.format` installs:
`[%(asctime)s] %(levelname)-8s [%(filename)s/%(funcName)s:%(lineno)s]  %(message)s`. -/
def fileStyleLine (r : Record) : String :=
  "[" ++ r.asctime ++ "] " ++ ljust8 r.levelname ++ " [" ++ r.filename ++ "/"
    ++ r.funcName ++ ":" ++ toString r.lineno ++ "]  " ++ r.message

/-- Embedding of `FileFormatter.formatMessage`: when the one-shot flag is set,
consume it and prefix the line with a newline; otherwise return the plain line. -/
def FileFormatter.formatMessage (f : FileFormatter) (r : Record) : FileFormatter × String :=
  if f.is_last_msg_exception then (⟨false⟩, "\n" ++ fileStyleLine r)
  else (f, fileStyleLine r)

/-- Embedding of `FileFormatter.formatException`: set the one-shot flag and
return the standard exception text prefixed with a newline. -/
def FileFormatter.formatException (_f : FileFormatter) (excText : String) : FileFormatter × String :=
  (⟨true⟩, "\n" ++ excText)

/-- Embedding of `FileFormatter.format` (the inherited `logging.Formatter.format`
with the overridden `formatMessage` and `formatException`): the message is
formatted first; only then, when the record carries exception info, the
exception text is appended after a line break. -/
def FileFormatter.format (f : FileFormatter) (r : Record) : FileFormatter × String :=
  let p := f.formatMessage r
  match r.excText with
  | none => p
  | some e =>
    let q := p.1.formatException e
    (q.1, (if p.2.endsWith "\n" then p.2 else p.2 ++ "\n") ++ q.2)

/-- The color pair that `StdFormatter.format` looks up by `levelno`; `none`
models the dictionary lookup falling through to the default `0`, which is an
integer and not a pair. -/
def stdColor (levelno : Nat) : Option (Nat × Nat) :=
  if levelno = logging.CRITICAL then some (31, 31)
  else if levelno = logging.ERROR then some (31, 31)
  else if levelno = logging.FATAL then some (31, 31)
  else if levelno = logging.WARNING then some (33, 33)
  else if levelno = logging.DEBUG then some (36, 37)
  else if levelno = logging.INFO then some (32, 32)
  else none

/-- The ANSI escape `\033[<n>m`. -/
def esc (n : Nat) : String := "\x1b[" ++ toString n ++ "m"

/-- Embedding of `StdFormatter.format` (with the inherited
`logging.Formatter.format` around the installed style). Subscripting the
dictionary default `0` with `color[0]` raises a `TypeError` in Python, modelled
as `Except.error`. When tracebacks are disabled, `formatException` returns the
empty string, which the base `format` then drops entirely (the cached
`record.exc_text` is falsy). -/
def StdFormatter.format (enableExc : Bool) (r : Record) : Except String String :=
  match stdColor r.levelno with
  | none => Except.error "TypeError: int is not subscriptable"
  | some c =>
    let line := esc 37 ++ "[" ++ r.asctime ++ "]" ++ esc 0 ++ " " ++ esc c.1
      ++ ljust8 r.levelname ++ esc 0 ++ " " ++ esc c.2 ++ r.message ++ esc 0
    match r.excText with
    | none => Except.ok line
    | some e =>
      if enableExc then
        Except.ok ((if line.endsWith "\n" then line else line ++ "\n") ++ e)
      else Except.ok line

/-- The separator line built in `FirstRowFileHandler.__init__` from
`datetime.now()`. -/
def separatorLine (t : Time) : String :=
  eqRun 7 ++ " API Launch " ++ "[" ++ pad2 t.day ++ "." ++ pad2 t.month ++ "."
    ++ pad4 t.year ++ " " ++ pad2 t.hour ++ ":" ++ pad2 t.minute ++ ":" ++ pad2 t.second
    ++ "]" ++ " " ++ eqRun 70

/-- The banner block written on the first emit: three newlines, the separator
line, three newlines. -/
def bannerText (t : Time) : String := "\n\n\n" ++ separatorLine t ++ "\n\n\n"

/-- State of a `FirstRowFileHandler` instance. The Python object acquires its
level and formatter right after construction through `setLevel` and
`setFormatter`; they are carried here as fields, together with the open stream
position (the target path) and the one-shot `first_run` flag. -/
structure FirstRowFileHandler where
  level : Nat
  filename : PyPath
  first_run : Bool
  separator : String
  formatter : FileFormatter

/-- The handler state as `set_logger` builds it: `first_run` true, separator
taken from the construction instant, a fresh `FileFormatter`. -/
def FirstRowFileHandler.construct (filename : PyPath) (lvl : Nat) (t : Time) :
    FirstRowFileHandler :=
  { level := lvl, filename := filename, first_run := true,
    separator := separatorLine t, formatter := ⟨false⟩ }

/-- Embedding of `FirstRowFileHandler.emit`: on the first run write the banner
to the stream, clear the flag, then let the inherited emit format the record
and write the line followed by the newline terminator. -/
def FirstRowFileHandler.emit (h : FirstRowFileHandler) (fs : FS) (r : Record) :
    FirstRowFileHandler × FS :=
  let fs1 := if h.first_run then fs.writeAppend h.filename ("\n\n\n" ++ h.separator ++ "\n\n\n") else fs
  let p := h.formatter.format r
  ({ h with first_run := false, formatter := p.1 },
   fs1.writeAppend h.filename (p.2 ++ "\n"))

/-- A sequence of direct `emit` calls on the handler. -/
def FirstRowFileHandler.emitAll : FirstRowFileHandler → FS → List Record → FirstRowFileHandler × FS
  | h, fs, [] => (h, fs)
  | h, fs, r :: rs =>
    let p := h.emit fs r
    FirstRowFileHandler.emitAll p.1 p.2 rs

/-- Records arriving at the handler through the logger: `Logger.callHandlers`
forwards a record to the handler only when `record.levelno >= handler.level`. -/
def FirstRowFileHandler.handleAll : FirstRowFileHandler → FS → List Record → FirstRowFileHandler × FS
  | h, fs, [] => (h, fs)
  | h, fs, r :: rs =>
    if h.level ≤ r.levelno then
      let p := h.emit fs r
      FirstRowFileHandler.handleAll p.1 p.2 rs
    else FirstRowFileHandler.handleAll h fs rs

/-- The text a fresh-flag-threaded sequence of `FileFormatter.format` calls
produces, one terminator per record, used to describe file contents. -/
def FileFormatter.formatAll : FileFormatter → List Record → String
  | _, [] => ""
  | f, r :: rs =>
    let p := f.format r
    p.2 ++ "\n" ++ FileFormatter.formatAll p.1 rs

/-- Helper: a handler whose `first_run` flag is already cleared appends exactly
the formatted lines, one terminator each, and never writes the banner again. -/
theorem emitAll_inactive (rs : List Record) :
    ∀ (h : FirstRowFileHandler) (fs : FS) (c : String),
    h.first_run = false → fs.findFile h.filename = some c →
    (h.emitAll fs rs).1.first_run = false ∧
    (h.emitAll fs rs).1.filename = h.filename ∧
    (h.emitAll fs rs).2.findFile h.filename = some (c ++ h.formatter.formatAll rs) := by
  induction rs with
  | nil =>
    intro h fs c h1 h2
    simp [FirstRowFileHandler.emitAll, FileFormatter.formatAll, h1, h2]
  | cons r rs ih =>
    intro h fs c h1 h2
    have hstep : h.emitAll fs (r :: rs) = FirstRowFileHandler.emitAll
        { h with first_run := false, formatter := (h.formatter.format r).1 }
        (fs.writeAppend h.filename ((h.formatter.format r).2 ++ "\n")) rs := by
      simp [FirstRowFileHandler.emitAll, FirstRowFileHandler.emit, h1]
    have h2' : (fs.writeAppend h.filename ((h.formatter.format r).2 ++ "\n")).findFile h.filename
        = some (c ++ ((h.formatter.format r).2 ++ "\n")) := by
      simp [FS.writeAppend, FS.findFile] at h2 ⊢
      simp [h2]
    obtain ⟨ha, hb, hc⟩ := ih
      { h with first_run := false, formatter := (h.formatter.format r).1 }
      (fs.writeAppend h.filename ((h.formatter.format r).2 ++ "\n"))
      (c ++ ((h.formatter.format r).2 ++ "\n")) rfl h2'
    refine ⟨by rw [hstep]; exact ha, by rw [hstep]; exact hb, ?_⟩
    rw [hstep]
    have hfmt : FileFormatter.formatAll h.formatter (r :: rs)
        = (h.formatter.format r).2 ++ "\n" ++ FileFormatter.formatAll (h.formatter.format r).1 rs := rfl
    rw [hfmt]
    simpa [String.append_assoc] using hc

/-- Helper: records below the handler level leave the handler state and the
filesystem untouched. -/
theorem handleAll_below (rs : List Record) :
    ∀ (h : FirstRowFileHandler) (fs : FS), (∀ r ∈ rs, r.levelno < h.level) →
    h.handleAll fs rs = (h, fs) := by
  induction rs with
  | nil => intro h fs _; rfl
  | cons r rs ih =>
    intro h fs hlow
    have hr : r.levelno < h.level := hlow r (by simp)
    have : ¬ h.level ≤ r.levelno := by omega
    simp [FirstRowFileHandler.handleAll, this]
    exact ih h fs (fun q hq => hlow q (by simp [hq]))

/-- C3: every `FirstRowFileHandler` instance writes the banner block exactly
once, immediately before the first record it emits and never again: after any
nonempty sequence of emit calls, the file holds its previous content, then the
banner, then exactly the formatted records; the flag is cleared after the
first emit. The previous content `c0` is arbitrary, so a newly constructed
instance re-banners even when appending to an existing file. -/
theorem firstRow_banner_written_once (filename : PyPath) (lvl : Nat) (t : Time)
    (fs : FS) (c0 : String) (r : Record) (rs : List Record)
    (h0 : fs.findFile filename = some c0) :
    ((FirstRowFileHandler.construct filename lvl t).emitAll fs (r :: rs)).2.findFile filename
      = some (c0 ++ bannerText t ++ FileFormatter.formatAll ⟨false⟩ (r :: rs)) ∧
    ((FirstRowFileHandler.construct filename lvl t).emitAll fs (r :: rs)).1.first_run = false := by
  have hstep : (FirstRowFileHandler.construct filename lvl t).emitAll fs (r :: rs)
      = FirstRowFileHandler.emitAll
        { FirstRowFileHandler.construct filename lvl t with
            first_run := false,
            formatter := ((FirstRowFileHandler.construct filename lvl t).formatter.format r).1 }
        ((fs.writeAppend filename (bannerText t)).writeAppend filename
          (((FirstRowFileHandler.construct filename lvl t).formatter.format r).2 ++ "\n")) rs := by
    simp [FirstRowFileHandler.emitAll, FirstRowFileHandler.emit,
      FirstRowFileHandler.construct, bannerText]
  have h2' : ((fs.writeAppend filename (bannerText t)).writeAppend filename
        (((FirstRowFileHandler.construct filename lvl t).formatter.format r).2 ++ "\n")).findFile filename
      = some ((c0 ++ bannerText t)
          ++ (((FirstRowFileHandler.construct filename lvl t).formatter.format r).2 ++ "\n")) := by
    simp [FS.writeAppend, FS.findFile] at h0 ⊢
    simp [h0]
  obtain ⟨ha, _, hc⟩ := emitAll_inactive rs
    { FirstRowFileHandler.construct filename lvl t with
        first_run := false,
        formatter := ((FirstRowFileHandler.construct filename lvl t).formatter.format r).1 }
    ((fs.writeAppend filename (bannerText t)).writeAppend filename
      (((FirstRowFileHandler.construct filename lvl t).formatter.format r).2 ++ "\n"))
    ((c0 ++ bannerText t)
      ++ (((FirstRowFileHandler.construct filename lvl t).formatter.format r).2 ++ "\n"))
    rfl h2'
  have hfmt : FileFormatter.formatAll ⟨false⟩ (r :: rs)
      = ((⟨false⟩ : FileFormatter).format r).2 ++ "\n"
        ++ FileFormatter.formatAll ((⟨false⟩ : FileFormatter).format r).1 rs := rfl
  constructor
  · rw [hstep, hfmt]
    simpa [FirstRowFileHandler.construct, String.append_assoc] using hc
  · rw [hstep]; exact ha

/-- C3 witness: a fresh handler over a file already holding "old" content,
receiving two records, yields old content, banner once, then the two lines. -/
theorem firstRow_banner_written_once_witness :
    ((FirstRowFileHandler.construct ["app.log"] 20 ⟨12, 10, 2026, 9, 30, 5⟩).emitAll
        ⟨[], fun q => if q = ["app.log"] then some "old" else none⟩
        [⟨20, "INFO", "ok", "t2", "m.py", "g", 4, none⟩,
         ⟨40, "ERROR", "boom", "t1", "m.py", "f", 3, none⟩]).2.findFile ["app.log"]
      = some ("old" ++ bannerText ⟨12, 10, 2026, 9, 30, 5⟩
          ++ FileFormatter.formatAll ⟨false⟩
            [⟨20, "INFO", "ok", "t2", "m.py", "g", 4, none⟩,
             ⟨40, "ERROR", "boom", "t1", "m.py", "f", 3, none⟩]) ∧
    ((FirstRowFileHandler.construct ["app.log"] 20 ⟨12, 10, 2026, 9, 30, 5⟩).emitAll
        ⟨[], fun q => if q = ["app.log"] then some "old" else none⟩
        [⟨20, "INFO", "ok", "t2", "m.py", "g", 4, none⟩,
         ⟨40, "ERROR", "boom", "t1", "m.py", "f", 3, none⟩]).1.first_run = false :=
  firstRow_banner_written_once ["app.log"] 20 ⟨12, 10, 2026, 9, 30, 5⟩
    ⟨[], fun q => if q = ["app.log"] then some "old" else none⟩ "old"
    ⟨20, "INFO", "ok", "t2", "m.py", "g", 4, none⟩
    [⟨40, "ERROR", "boom", "t1", "m.py", "f", 3, none⟩] rfl

/-- C9: constructing the file sink opens (creates or keeps) the file without
writing anything, and as long as no record reaches the severity
threshold, the handler never writes: the banner flag stays set and the file
keeps the content it had right after opening, so a file that started absent
stays empty. -/
theorem firstRow_silent_below_level (filename : PyPath) (lvl : Nat) (t : Time)
    (fs : FS) (rs : List Record)
    (hlow : ∀ r ∈ rs, r.levelno < lvl) :
    (fs.openAppend filename).findFile filename = some ((fs.findFile filename).getD "") ∧
    (FirstRowFileHandler.construct filename lvl t).handleAll (fs.openAppend filename) rs
      = (FirstRowFileHandler.construct filename lvl t, fs.openAppend filename) := by
  refine ⟨by simp [FS.openAppend, FS.findFile], ?_⟩
  exact handleAll_below rs _ _ (by simpa [FirstRowFileHandler.construct] using hlow)

/-- C9 witness: with the default file level INFO and only a DEBUG record
arriving, an initially absent file is created empty and stays empty, and the
banner flag stays set. -/
theorem firstRow_silent_below_level_witness :
    ((⟨[], fun _ => none⟩ : FS).openAppend ["x.log"]).findFile ["x.log"]
      = some (((⟨[], fun _ => none⟩ : FS).findFile ["x.log"]).getD "") ∧
    (FirstRowFileHandler.construct ["x.log"] 20 ⟨12, 10, 2026, 9, 30, 5⟩).handleAll
        ((⟨[], fun _ => none⟩ : FS).openAppend ["x.log"])
        [⟨10, "DEBUG", "quiet", "t", "m.py", "f", 7, none⟩]
      = (FirstRowFileHandler.construct ["x.log"] 20 ⟨12, 10, 2026, 9, 30, 5⟩,
         (⟨[], fun _ => none⟩ : FS).openAppend ["x.log"]) :=
  firstRow_silent_below_level ["x.log"] 20 ⟨12, 10, 2026, 9, 30, 5⟩
    ⟨[], fun _ => none⟩ [⟨10, "DEBUG", "quiet", "t", "m.py", "f", 7, none⟩] (by decide)

/-- C4: the claim says a record with an unmapped severity is formatted as a
plain uncolored line, and the spec clearly intends the dictionary default to
mean "no color"; the code instead subscripts the integer default `0`, so
`StdFormatter.format` raises `TypeError` for every unmapped severity. Here the
embedded formatter is evaluated at a concrete unmapped severity (25). -/
theorem stdFormatter_unmapped_level_type_error :
    StdFormatter.format false ⟨25, "Level 25", "hello", "t", "m.py", "f", 1, none⟩
      = Except.error "TypeError: int is not subscriptable" := rfl

/-- C5: after `formatException` (whose own output is a newline plus the
standard exception text), the very next `formatMessage` call returns the
message with a leading newline, whatever record it is for, and the call after
that returns the plain message. -/
theorem fileFormatter_exception_newline_oneshot (f : FileFormatter) (e : String)
    (r r2 : Record) :
    (f.formatException e).2 = "\n" ++ e ∧
    ((f.formatException e).1.formatMessage r).2 = "\n" ++ fileStyleLine r ∧
    (((f.formatException e).1.formatMessage r).1.formatMessage r2).2 = fileStyleLine r2 := by
  simp [FileFormatter.formatException, FileFormatter.formatMessage]

/-- C10: a record that itself carries exception info gets no leading-newline
prefix on its own message line (starting from a clear flag): `format` renders
the message before `formatException` runs, so the flag set by the exception
only prefixes the next formatted message. -/
theorem fileFormatter_exc_record_message_unprefixed (r r2 : Record) (e : String)
    (hx : r.excText = some e) :
    (FileFormatter.format ⟨false⟩ r).2
      = (if (fileStyleLine r).endsWith "\n" then fileStyleLine r else fileStyleLine r ++ "\n")
        ++ ("\n" ++ e) ∧
    (FileFormatter.format ⟨false⟩ r).1.is_last_msg_exception = true ∧
    ((FileFormatter.format ⟨false⟩ r).1.formatMessage r2).2 = "\n" ++ fileStyleLine r2 := by
  simp [FileFormatter.format, FileFormatter.formatMessage, FileFormatter.formatException, hx]

/-- C10 witness: concrete exception-carrying record, then a plain record. -/
theorem fileFormatter_exc_record_message_unprefixed_witness :
    (FileFormatter.format ⟨false⟩ ⟨40, "ERROR", "boom", "t1", "m.py", "f", 3, some "Traceback"⟩).2
      = (if (fileStyleLine ⟨40, "ERROR", "boom", "t1", "m.py", "f", 3, some "Traceback"⟩).endsWith "\n"
          then fileStyleLine ⟨40, "ERROR", "boom", "t1", "m.py", "f", 3, some "Traceback"⟩
          else fileStyleLine ⟨40, "ERROR", "boom", "t1", "m.py", "f", 3, some "Traceback"⟩ ++ "\n")
        ++ ("\n" ++ "Traceback") ∧
    (FileFormatter.format ⟨false⟩
        ⟨40, "ERROR", "boom", "t1", "m.py", "f", 3, some "Traceback"⟩).1.is_last_msg_exception = true ∧
    ((FileFormatter.format ⟨false⟩
        ⟨40, "ERROR", "boom", "t1", "m.py", "f", 3, some "Traceback"⟩).1.formatMessage
          ⟨20, "INFO", "ok", "t2", "m.py", "g", 4, none⟩).2
      = "\n" ++ fileStyleLine ⟨20, "INFO", "ok", "t2", "m.py", "g", 4, none⟩ :=
  fileFormatter_exc_record_message_unprefixed
    ⟨40, "ERROR", "boom", "t1", "m.py", "f", 3, some "Traceback"⟩
    ⟨20, "INFO", "ok", "t2", "m.py", "g", 4, none⟩ "Traceback" rfl

/-- State of the console `logging.StreamHandler`: its level and the traceback
toggle that `set_logger` pushes into its `StdFormatter`. -/
structure StreamHandlerState where
  level : Nat
  show_traceback : Bool

/-- A sink attached to the logger: the console stream handler or the
`FirstRowFileHandler`. -/
inductive Handler where
  | stream : StreamHandlerState → Handler
  | file : FirstRowFileHandler → Handler

/-- The severity threshold of a handler. -/
def Handler.level : Handler → Nat
  | .stream st => st.level
  | .file h => h.level

/-- Embedding of `Handler.emit` for each sink: the stream handler formats with
`StdFormatter` and writes the line plus terminator to the console (a raised
`TypeError` in `format` is caught by `Handler.handleError` and the record is
dropped); the file sink defers to `FirstRowFileHandler.emit`. -/
def Handler.handle : Handler → FS → String → Record → Handler × FS × String
  | .stream st, fs, console, r =>
    match StdFormatter.format st.show_traceback r with
    | .error _ => (.stream st, fs, console)
    | .ok line => (.stream st, fs, console ++ line ++ "\n")
  | .file h, fs, console, r =>
    let p := h.emit fs r
    (.file p.1, p.2, console)

/-- The process-wide named logger: its set level and attached handlers. -/
structure Logger where
  level : Nat
  handlers : List Handler

/-- Embedding of `Logger.callHandlers`: each attached handler whose level the
record reaches processes it, in attachment order. -/
def Logger.callHandlers (l : Logger) (fs : FS) (console : String) (r : Record) :
    Logger × FS × String :=
  let res := l.handlers.foldl
    (fun (acc : List Handler × FS × String) (h : Handler) =>
      if h.level ≤ r.levelno then
        let q := h.handle acc.2.1 acc.2.2 r
        (acc.1 ++ [q.1], q.2.1, q.2.2)
      else (acc.1 ++ [h], acc.2.1, acc.2.2))
    ([], fs, console)
  ({ l with handlers := res.1 }, res.2.1, res.2.2)

/-- Embedding of emitting one record through the logger (`Logger.debug` and
friends): the record is handled only when its severity reaches the level set
on the logger. -/
def Logger.log (l : Logger) (fs : FS) (console : String) (r : Record) :
    Logger × FS × String :=
  if l.level ≤ r.levelno then l.callHandlers fs console r else (l, fs, console)

/-- Value supplied for the `logger` keyword argument: either a genuine
`logging.Logger` instance or anything else (which the `isinstance` check in
`set_logger` treats as unset). -/
inductive LoggerArg where
  | validLogger : Logger → LoggerArg
  | malformed : LoggerArg

/-- The `LoggerTemplate` dataclass of src/logger_template.py. -/
structure LoggerTemplate where
  enable_logger : Bool
  enable_logfile : Bool
  logger : Option LoggerArg
  logfile_path : PyPath
  logfile_name : String
  logfile_level : Nat
  log_std_level : Nat
  show_std_traceback : Bool

/-- The fixed name of the process-wide logger. -/
def LOGGER_NAME : String := "RC_LOGGER"

/-- The default `logfile_path` expression: `logfiles_[<script name>]`, a single
relative path component built from `os.path.basename(sys.argv[0])`. -/
def default_logfile_path (scriptName : String) : PyPath :=
  ["logfiles_[" ++ scriptName ++ "]"]

/-- The default `logfile_name` expression:
`datetime.now().strftime` of `__%d.%m.%Y__%H`, followed by `.00__.log`. -/
def default_logfile_name (t : Time) : String :=
  "__" ++ pad2 t.day ++ "." ++ pad2 t.month ++ "." ++ pad4 t.year
    ++ "__" ++ pad2 t.hour ++ ".00__.log"

/-- The field defaults of the `LoggerTemplate` dataclass, as evaluated when
the class body runs, i.e. at module import: `importTime` is the
`datetime.now()` of that moment and `scriptName` the `sys.argv[0]` basename of
the process. -/
def LoggerTemplate.classDefaults (scriptName : String) (importTime : Time) : LoggerTemplate :=
  { enable_logger := true
    enable_logfile := false
    logger := none
    logfile_path := default_logfile_path scriptName
    logfile_name := default_logfile_name importTime
    logfile_level := logging.INFO
    log_std_level := logging.DEBUG
    show_std_traceback := false }

/-- Evaluating `LoggerTemplate()` at `constructionTime`: Python dataclass field
defaults are expressions evaluated once, when the class statement executes at
module import; a later instantiation copies those stored values, so the
construction instant does not enter the result. -/
def LoggerTemplate.construct (scriptName : String) (importTime _constructionTime : Time) :
    LoggerTemplate :=
  LoggerTemplate.classDefaults scriptName importTime

/-- The keyword arguments of `set_logger`; `none` means the keyword was not
supplied. Unknown keywords are dropped by the field-name check in the source
and have no counterpart here. -/
structure SetLoggerArgs where
  enable_logger : Option Bool := none
  enable_logfile : Option Bool := none
  logger : Option LoggerArg := none
  logfile_path : Option PyPath := none
  logfile_name : Option String := none
  logfile_level : Option Nat := none
  log_std_level : Option Nat := none
  show_std_traceback : Option Bool := none

/-- The `setattr` loop of `set_logger`: every supplied keyword that matches a
dataclass field overwrites that field. -/
def applyOverrides (t : LoggerTemplate) (a : SetLoggerArgs) : LoggerTemplate where
  enable_logger := a.enable_logger.getD t.enable_logger
  enable_logfile := a.enable_logfile.getD t.enable_logfile
  logger := match a.logger with
    | some v => some v
    | none => t.logger
  logfile_path := a.logfile_path.getD t.logfile_path
  logfile_name := a.logfile_name.getD t.logfile_name
  logfile_level := a.logfile_level.getD t.logfile_level
  log_std_level := a.log_std_level.getD t.log_std_level
  show_std_traceback := a.show_std_traceback.getD t.show_std_traceback

/-- The ambient state a `set_logger` call runs in: the process identity and
clock, the fields stamped onto the records that `set_logger` itself emits, the
filesystem, and the current state of the process-wide logger that
`logging.getLogger(LOGGER_NAME)` returns. -/
structure Env where
  scriptName : String
  importTime : Time
  now : Time
  setupAsctime : String
  setupFilename : String
  setupFuncName : String
  setupLineno : Nat
  fs : FS
  namedLogger : Logger

/-- The DEBUG record that a `logger.debug(msg)` call inside `set_logger`
produces. -/
def setupRecord (env : Env) (msg : String) : Record :=
  { levelno := logging.DEBUG, levelname := "DEBUG", message := msg,
    asctime := env.setupAsctime, filename := env.setupFilename,
    funcName := env.setupFuncName, lineno := env.setupLineno, excText := none }

/-- What a `set_logger` call returns and changes: the returned logger, the
filesystem afterwards, the text written to standard output, and whether the
user-supplied logger was returned verbatim. -/
structure SetLoggerResult where
  logger : Logger
  fs : FS
  console : String
  returnedUserLogger : Bool

/-- Embedding of `Path(dir) / Path(str(name))`. -/
def pathJoin (p : PyPath) (name : String) : PyPath := p ++ [name]

/-- The named logger with the console handler attached, as the enabled branch
of `set_logger` builds it before the `enable_logfile` test: level set to
DEBUG, console handler at `log_std_level` appended. -/
def withStdHandler (env : Env) (t : LoggerTemplate) : Logger :=
  { level := logging.DEBUG,
    handlers := env.namedLogger.handlers
      ++ [.stream { level := t.log_std_level, show_traceback := t.show_std_traceback }] }

/-- The `enable_logfile` arm of `set_logger`: create the directory (with
parents, tolerating existing ones), open the file sink, attach it, and emit
the DEBUG line naming the resolved file path through the logger. -/
def set_logger_file_branch (env : Env) (t : LoggerTemplate) : SetLoggerResult :=
  let fs := env.fs.mkdirP t.logfile_path
  let log_file_path := pathJoin t.logfile_path t.logfile_name
  let fs := fs.openAppend log_file_path
  let logger : Logger := { withStdHandler env t with
    handlers := (withStdHandler env t).handlers
      ++ [.file (FirstRowFileHandler.construct log_file_path t.logfile_level env.now)] }
  let res := logger.log fs ""
    (setupRecord env ("Logging to the file [" ++ pathRepr log_file_path ++ "]"))
  { logger := res.1, fs := res.2.1, console := res.2.2, returnedUserLogger := false }

/-- The arm of `set_logger` with logging enabled but file output disabled:
just the console handler and the DEBUG line "Logging without file". -/
def set_logger_nofile_branch (env : Env) (t : LoggerTemplate) : SetLoggerResult :=
  let res := (withStdHandler env t).log env.fs "" (setupRecord env "Logging without file")
  { logger := res.1, fs := res.2.1, console := res.2.2, returnedUserLogger := false }

/-- Embedding of `set_logger` (src/logger.py): apply keyword overrides to a
fresh `LoggerTemplate`; return a genuine user-supplied logger verbatim;
otherwise configure the named logger: silence it (level `CRITICAL + 1`) when
`enable_logger` is false, else take the console-handler branch and, when
`enable_logfile` is set, the file branch. -/
def set_logger (env : Env) (a : SetLoggerArgs) : SetLoggerResult :=
  let t := applyOverrides (LoggerTemplate.construct env.scriptName env.importTime env.now) a
  match t.logger with
  | some (LoggerArg.validLogger ext) =>
    { logger := ext, fs := env.fs, console := "", returnedUserLogger := true }
  | _ =>
    if t.enable_logger = false then
      { logger := { env.namedLogger with level := logging.CRITICAL + 1 },
        fs := env.fs, console := "", returnedUserLogger := false }
    else if t.enable_logfile = false then set_logger_nofile_branch env t
    else set_logger_file_branch env t

/-- Helper: a single handler never touches the directory set. -/
theorem Handler.handle_dirs (h : Handler) (fs : FS) (c : String) (r : Record) :
    ((h.handle fs c r).2.1).dirs = fs.dirs := by
  cases h with
  | stream st =>
    cases hf : StdFormatter.format st.show_traceback r <;> simp [Handler.handle, hf]
  | file fh =>
    cases hfr : fh.first_run <;>
      simp [Handler.handle, FirstRowFileHandler.emit, FS.writeAppend, hfr]

/-- Helper: the handler fold of `Logger.callHandlers` never touches the
directory set. -/
theorem foldl_handlers_dirs (r : Record) (hs : List Handler) :
    ∀ (acc : List Handler × FS × String),
    ((hs.foldl
      (fun (acc : List Handler × FS × String) (h : Handler) =>
        if h.level ≤ r.levelno then
          let q := h.handle acc.2.1 acc.2.2 r
          (acc.1 ++ [q.1], q.2.1, q.2.2)
        else (acc.1 ++ [h], acc.2.1, acc.2.2)) acc).2.1).dirs = acc.2.1.dirs := by
  induction hs with
  | nil => intro acc; rfl
  | cons h hs ih =>
    intro acc
    rw [List.foldl_cons, ih]
    by_cases hlev : h.level ≤ r.levelno
    · simp [hlev, Handler.handle_dirs]
    · simp [hlev]

/-- Helper: emitting a record through the logger never touches the directory
set. -/
theorem Logger.log_dirs (l : Logger) (fs : FS) (c : String) (r : Record) :
    ((l.log fs c r).2.1).dirs = fs.dirs := by
  by_cases hl : l.level ≤ r.levelno
  · simp only [Logger.log, hl, if_true, Logger.callHandlers]
    exact foldl_handlers_dirs r l.handlers ([], fs, c)
  · simp [Logger.log, hl]

/-- Helper: directories survive `FS.addDir`. -/
theorem FS.addDir_mono (fs : FS) (d x : PyPath) (hx : x ∈ fs.dirs) :
    x ∈ (fs.addDir d).dirs := by
  unfold FS.addDir
  split
  · exact hx
  · simp [hx]

/-- Helper: `FS.addDir` makes its argument exist. -/
theorem FS.addDir_mem_self (fs : FS) (d : PyPath) : d ∈ (fs.addDir d).dirs := by
  unfold FS.addDir
  split
  · assumption
  · simp

/-- Helper: `FS.addDir` of an existing directory does nothing. -/
theorem FS.addDir_of_mem (fs : FS) (d : PyPath) (h : d ∈ fs.dirs) : fs.addDir d = fs := by
  unfold FS.addDir
  simp [h]

/-- Helper: directories survive a fold of `FS.addDir`. -/
theorem foldl_addDir_mono (ds : List PyPath) :
    ∀ (fs : FS) (x : PyPath), x ∈ fs.dirs → x ∈ (ds.foldl FS.addDir fs).dirs := by
  induction ds with
  | nil => intro fs x hx; exact hx
  | cons d ds ih =>
    intro fs x hx
    rw [List.foldl_cons]
    exact ih _ _ (FS.addDir_mono fs d x hx)

/-- Helper: a fold of `FS.addDir` makes every listed directory exist. -/
theorem foldl_addDir_mem (ds : List PyPath) :
    ∀ (fs : FS) (d : PyPath), d ∈ ds → d ∈ (ds.foldl FS.addDir fs).dirs := by
  induction ds with
  | nil => intro fs d hd; cases hd
  | cons d0 ds ih =>
    intro fs d hd
    rw [List.foldl_cons]
    rcases List.mem_cons.mp hd with h | h
    · subst h
      exact foldl_addDir_mono ds _ _ (FS.addDir_mem_self fs d)
    · exact ih _ _ h

/-- Helper: a fold of `FS.addDir` over directories that all exist is the
identity. -/
theorem foldl_addDir_stable (ds : List PyPath) :
    ∀ (fs : FS), (∀ d ∈ ds, d ∈ fs.dirs) → ds.foldl FS.addDir fs = fs := by
  induction ds with
  | nil => intro fs _; rfl
  | cons d ds ih =>
    intro fs h
    rw [List.foldl_cons, FS.addDir_of_mem fs d (h d (by simp))]
    exact ih fs (fun q hq => h q (by simp [hq]))

/-- Helper: after `FS.mkdirP p`, every nonempty leading segment of `p` exists. -/
theorem FS.mkdirP_mem (fs : FS) (p : PyPath) (i : Nat) (hi : i < p.length) :
    p.take (i + 1) ∈ (fs.mkdirP p).dirs := by
  refine foldl_addDir_mem _ fs _ ?_
  exact List.mem_map.mpr ⟨i, List.mem_range.mpr hi, rfl⟩

/-- Helper: `FS.mkdirP` is the identity when all leading segments already
exist. -/
theorem FS.mkdirP_stable (fs : FS) (p : PyPath)
    (h : ∀ d ∈ leadingPaths p, d ∈ fs.dirs) : fs.mkdirP p = fs :=
  foldl_addDir_stable _ fs h

/-- Helper: with no genuine external logger, logging not disabled, and file
output requested, `set_logger` takes the file branch. -/
theorem set_logger_reduces_file (env : Env) (a : SetLoggerArgs)
    (hl : a.logger = none) (he : a.enable_logger ≠ some false)
    (hf : a.enable_logfile = some true) :
    set_logger env a = set_logger_file_branch env
      (applyOverrides (LoggerTemplate.construct env.scriptName env.importTime env.now) a) := by
  have hte : a.enable_logger.getD true = true := by
    cases ha : a.enable_logger with
    | none => rfl
    | some b =>
      cases b
      · exact absurd ha he
      · rfl
  simp [set_logger, applyOverrides, LoggerTemplate.construct, LoggerTemplate.classDefaults,
    hl, hf, hte]

/-- C1: supplying a genuine logger handle makes `set_logger` return exactly
that handle, with the filesystem untouched (no directory created), nothing
printed, and no sink attached to it; every other supplied option is
irrelevant: any two argument bundles carrying the same external logger give
the same result. -/
theorem set_logger_external_logger_identity (env : Env) (a : SetLoggerArgs) (ext : Logger)
    (h : a.logger = some (LoggerArg.validLogger ext)) :
    set_logger env a = { logger := ext, fs := env.fs, console := "", returnedUserLogger := true } ∧
    ∀ a2 : SetLoggerArgs, a2.logger = some (LoggerArg.validLogger ext) →
      set_logger env a2 = set_logger env a := by
  have main : ∀ a3 : SetLoggerArgs, a3.logger = some (LoggerArg.validLogger ext) →
      set_logger env a3
        = { logger := ext, fs := env.fs, console := "", returnedUserLogger := true } := by
    intro a3 h3
    simp [set_logger, applyOverrides, h3]
  exact ⟨main a h, fun a2 h2 => (main a2 h2).trans (main a h).symm⟩

/-- Ambient state used by the concrete witnesses: a fresh filesystem and a
fresh named logger. -/
def sampleEnv : Env :=
  { scriptName := "main.py", importTime := ⟨12, 10, 2026, 9, 0, 0⟩,
    now := ⟨12, 10, 2026, 9, 30, 5⟩, setupAsctime := "2026-10-12 09:30:05,123",
    setupFilename := "logger.py", setupFuncName := "set_logger", setupLineno := 62,
    fs := ⟨[], fun _ => none⟩, namedLogger := ⟨logging.NOTSET, []⟩ }

/-- A user-supplied logger handle. -/
def extLogger : Logger := ⟨logging.WARNING, []⟩

/-- Arguments carrying an external logger plus every other option, all of
which must be ignored. -/
def extArgs : SetLoggerArgs :=
  { enable_logger := some true, enable_logfile := some true,
    logger := some (LoggerArg.validLogger extLogger),
    logfile_path := some ["/", "tmp", "logs"], logfile_name := some "test.log",
    logfile_level := some logging.ERROR, log_std_level := some logging.ERROR,
    show_std_traceback := some true }

/-- C1 witness: the external logger comes back verbatim and the options are
void at a concrete input. -/
theorem set_logger_external_logger_identity_witness :
    set_logger sampleEnv extArgs
      = { logger := extLogger, fs := sampleEnv.fs, console := "", returnedUserLogger := true } ∧
    ∀ a2 : SetLoggerArgs, a2.logger = some (LoggerArg.validLogger extLogger) →
      set_logger sampleEnv a2 = set_logger sampleEnv extArgs :=
  set_logger_external_logger_identity sampleEnv extArgs extLogger rfl

/-- C2: with `enable_logger=false` and no external logger, `set_logger`
raises the logger level to `CRITICAL + 1`, attaches no sink, touches neither
filesystem nor console, and through the returned logger no record at any
standard severity is ever written anywhere. -/
theorem set_logger_disabled_silent (env : Env) (a : SetLoggerArgs)
    (hl : a.logger = none) (he : a.enable_logger = some false) :
    (set_logger env a).logger.level = logging.CRITICAL + 1 ∧
    (set_logger env a).logger.handlers = env.namedLogger.handlers ∧
    (set_logger env a).fs = env.fs ∧
    (set_logger env a).console = "" ∧
    ∀ (r : Record) (fs : FS) (c : String), r.levelno ≤ logging.CRITICAL →
      (set_logger env a).logger.log fs c r = ((set_logger env a).logger, fs, c) := by
  have hres : set_logger env a
      = { logger := { env.namedLogger with level := logging.CRITICAL + 1 },
          fs := env.fs, console := "", returnedUserLogger := false } := by
    simp [set_logger, applyOverrides, LoggerTemplate.construct, LoggerTemplate.classDefaults,
      hl, he]
  rw [hres]
  refine ⟨rfl, rfl, rfl, rfl, ?_⟩
  intro r fs c hr
  have hx : ¬ (logging.CRITICAL + 1 ≤ r.levelno) := by
    simp only [logging.CRITICAL] at hr ⊢
    omega
  simp [Logger.log, hx]

/-- Arguments that only disable logging. -/
def disabledArgs : SetLoggerArgs := { enable_logger := some false }

/-- C2 witness: the disabled-logger facts at a concrete input. -/
theorem set_logger_disabled_silent_witness :
    (set_logger sampleEnv disabledArgs).logger.level = logging.CRITICAL + 1 ∧
    (set_logger sampleEnv disabledArgs).logger.handlers = sampleEnv.namedLogger.handlers ∧
    (set_logger sampleEnv disabledArgs).fs = sampleEnv.fs ∧
    (set_logger sampleEnv disabledArgs).console = "" ∧
    ∀ (r : Record) (fs : FS) (c : String), r.levelno ≤ logging.CRITICAL →
      (set_logger sampleEnv disabledArgs).logger.log fs c r
        = ((set_logger sampleEnv disabledArgs).logger, fs, c) :=
  set_logger_disabled_silent sampleEnv disabledArgs rfl rfl

/-- C7 counterexample: importing the module at hour 10 and constructing the
configuration record at hour 11 yields a default file name that names hour 10,
not the construction hour, refuting that each construction reflects the
then-current hour. -/
theorem loggerTemplate_defaults_not_construction_time :
    (LoggerTemplate.construct "main.py" ⟨12, 10, 2026, 10, 0, 0⟩
        ⟨12, 10, 2026, 11, 0, 0⟩).logfile_name
      ≠ default_logfile_name ⟨12, 10, 2026, 11, 0, 0⟩ := by decide

/-- C7 amended: the dataclass defaults are computed once, when the class body
runs at module import: the default path is `logfiles_[<scriptname>]` and the
default file name is `__DD.MM.YYYY__HH.00__.log` built from the import-time
date and hour, and every later construction returns those same stored values
whatever the construction instant is. -/
theorem loggerTemplate_defaults_import_time (scriptName : String)
    (importTime ct1 ct2 : Time) :
    LoggerTemplate.construct scriptName importTime ct1
      = LoggerTemplate.construct scriptName importTime ct2 ∧
    (LoggerTemplate.construct scriptName importTime ct1).logfile_path
      = default_logfile_path scriptName ∧
    (LoggerTemplate.construct scriptName importTime ct1).logfile_name
      = default_logfile_name importTime :=
  ⟨rfl, rfl, rfl⟩

/-- Helper: the file branch changes the directory set exactly as
`mkdirP logfile_path` does; the file open and the debug emission leave
directories alone. -/
theorem set_logger_file_branch_dirs (env : Env) (t : LoggerTemplate) :
    (set_logger_file_branch env t).fs.dirs = (env.fs.mkdirP t.logfile_path).dirs := by
  simp [set_logger_file_branch, Logger.log_dirs, FS.openAppend]

/-- Arguments of the directory-creation claim: file output on, nothing else
forced. -/
def fileArgs : SetLoggerArgs :=
  { enable_logfile := some true, logfile_path := some ["/", "tmp", "logs"],
    logfile_name := some "test.log" }

/-- Arguments with file output on but logging off. -/
def fileArgsDisabled : SetLoggerArgs :=
  { enable_logger := some false, enable_logfile := some true,
    logfile_path := some ["/", "tmp", "logs"], logfile_name := some "test.log" }

/-- C8 counterexample: an invocation with `enable_logfile=true` but
`enable_logger=false` creates no directory at all — the claim quantified over
every invocation with file output enabled, which is false. -/
theorem set_logger_mkdir_needs_enabled_cex :
    fileArgsDisabled.enable_logfile = some true ∧
    ¬ (["/", "tmp", "logs"] ∈ (set_logger sampleEnv fileArgsDisabled).fs.dirs) := by
  constructor
  · rfl
  · intro hmem
    have hfs : (set_logger sampleEnv fileArgsDisabled).fs.dirs = [] := rfl
    rw [hfs] at hmem
    cases hmem

/-- C8 amended: for every invocation with logging enabled (supplied true or
defaulted), no external logger, and `enable_logfile=true`, the target
directory and all its ancestors are created if absent, and re-invoking
`set_logger` when the directories already exist changes no directory (creation
is idempotent and cannot fail in the model, as `exist_ok=True` suppresses the
only error the source could raise there). -/
theorem set_logger_mkdir_idempotent (env : Env) (a : SetLoggerArgs) (t : LoggerTemplate)
    (hl : a.logger = none) (he : a.enable_logger ≠ some false)
    (hf : a.enable_logfile = some true)
    (ht : t = applyOverrides (LoggerTemplate.construct env.scriptName env.importTime env.now) a) :
    (∀ i, i < t.logfile_path.length →
      t.logfile_path.take (i + 1) ∈ (set_logger env a).fs.dirs) ∧
    (t.logfile_path ≠ [] → t.logfile_path ∈ (set_logger env a).fs.dirs) ∧
    (set_logger { env with fs := (set_logger env a).fs } a).fs.dirs
      = (set_logger env a).fs.dirs := by
  have hred := set_logger_reduces_file env a hl he hf
  have hdirs1 : (set_logger env a).fs.dirs = (env.fs.mkdirP t.logfile_path).dirs := by
    rw [hred, set_logger_file_branch_dirs, ht]
  have part1 : ∀ i, i < t.logfile_path.length →
      t.logfile_path.take (i + 1) ∈ (set_logger env a).fs.dirs := by
    intro i hi
    rw [hdirs1]
    exact FS.mkdirP_mem env.fs t.logfile_path i hi
  refine ⟨part1, ?_, ?_⟩
  · intro hne
    have hlen : 0 < t.logfile_path.length := List.length_pos.mpr hne
    have := part1 (t.logfile_path.length - 1) (by omega)
    have harith : t.logfile_path.length - 1 + 1 = t.logfile_path.length := by omega
    rw [harith, List.take_length] at this
    exact this
  · have hred2 := set_logger_reduces_file { env with fs := (set_logger env a).fs } a hl he hf
    rw [hred2, set_logger_file_branch_dirs]
    have hsame : (applyOverrides (LoggerTemplate.construct
          ({ env with fs := (set_logger env a).fs } : Env).scriptName
          ({ env with fs := (set_logger env a).fs } : Env).importTime
          ({ env with fs := (set_logger env a).fs } : Env).now) a).logfile_path
        = t.logfile_path := by
      rw [ht]
    rw [hsame]
    have hall : ∀ d ∈ leadingPaths t.logfile_path, d ∈ (set_logger env a).fs.dirs := by
      intro d hd
      obtain ⟨i, hi, rfl⟩ := List.mem_map.mp hd
      exact part1 i (List.mem_range.mp hi)
    exact congrArg FS.dirs (FS.mkdirP_stable _ t.logfile_path hall)

/-- The overridden template of the C8 witness scenario. -/
def fileTemplate : LoggerTemplate :=
  applyOverrides (LoggerTemplate.construct sampleEnv.scriptName sampleEnv.importTime
    sampleEnv.now) fileArgs

/-- C8 witness: the amended directory facts at a concrete input. -/
theorem set_logger_mkdir_idempotent_witness :
    (∀ i, i < fileTemplate.logfile_path.length →
      fileTemplate.logfile_path.take (i + 1) ∈ (set_logger sampleEnv fileArgs).fs.dirs) ∧
    (fileTemplate.logfile_path ≠ [] →
      fileTemplate.logfile_path ∈ (set_logger sampleEnv fileArgs).fs.dirs) ∧
    (set_logger { sampleEnv with fs := (set_logger sampleEnv fileArgs).fs } fileArgs).fs.dirs
      = (set_logger sampleEnv fileArgs).fs.dirs :=
  set_logger_mkdir_idempotent sampleEnv fileArgs fileTemplate rfl (by decide) rfl rfl

/-- Arguments of the scenario in the spec: logging on, file output on, path
`/tmp/logs`, name `test.log`, every level left at its default. -/
def scenarioArgs : SetLoggerArgs :=
  { enable_logger := some true, enable_logfile := some true,
    logfile_path := some ["/", "tmp", "logs"], logfile_name := some "test.log" }

/-- C6 counterexample: in the scenario the created file is empty — it holds no
banner (and no debug line), because the debug record stays below the default
INFO threshold of the file sink, so the sink never emits. -/
theorem set_logger_scenario_file_empty_cex :
    (set_logger sampleEnv scenarioArgs).fs.findFile ["/", "tmp", "logs", "test.log"]
      = some "" ∧
    ¬ ∃ (pre post : String),
        (set_logger sampleEnv scenarioArgs).fs.findFile ["/", "tmp", "logs", "test.log"]
          = some (pre ++ bannerText sampleEnv.now ++ post) := by
  have hcontent : (set_logger sampleEnv scenarioArgs).fs.findFile
      ["/", "tmp", "logs", "test.log"] = some "" := by rfl
  refine ⟨hcontent, ?_⟩
  rintro ⟨pre, post, hcontra⟩
  rw [hcontent] at hcontra
  have hlen : ("" : String).length = (pre ++ bannerText sampleEnv.now ++ post).length :=
    congrArg String.length (Option.some.inj hcontra)
  rw [String.length_append, String.length_append] at hlen
  have hb : (bannerText sampleEnv.now).length = 117 := by decide
  have h0 : ("" : String).length = 0 := rfl
  rw [hb, h0] at hlen
  omega

/-- C6 amended: the scenario creates directory `/tmp/logs` (with its
ancestors) and creates file `/tmp/logs/test.log`, but the file stays empty;
the debug line naming the resolved path is written to the console only, since
at the default INFO threshold of the file sink the DEBUG record is filtered and the
banner is written only on a first emitted record. -/
theorem set_logger_scenario_amended :
    ["/", "tmp", "logs"] ∈ (set_logger sampleEnv scenarioArgs).fs.dirs ∧
    (set_logger sampleEnv scenarioArgs).fs.findFile ["/", "tmp", "logs", "test.log"]
      = some "" ∧
    (set_logger sampleEnv scenarioArgs).console
      = "\x1b[37m[2026-10-12 09:30:05,123]\x1b[0m \x1b[36mDEBUG   \x1b[0m \x1b[37mLogging to the file [/tmp/logs/test.log]\x1b[0m\n" := by
  refine ⟨?_, rfl, rfl⟩
  have hd : (set_logger sampleEnv scenarioArgs).fs.dirs
      = [["/"], ["/", "tmp"], ["/", "tmp", "logs"]] := rfl
  rw [hd]
  simp
